import Mathlib

/-!
Verification of the game-rule engine of `rps_game.py`: a three-round
rock-paper-scissors variant with a single-use "bomb" move.  The Python
functions `validate_move`, `resolve_round`, `update_game_state`,
`bot_move`, `generate_referee_response` and `run_turn` are embedded as
pure Lean functions; the module-level mutable `GameState` becomes an
explicit state value that each step takes and returns, and the
`random.choice` draw of the bot becomes an explicit index parameter.
-/

namespace RpsGame

/-- The round outcome record of `resolve_round`:
`{"winner": ..., "user_move": ..., "bot_move": ...}`. -/
structure RoundOutcome where
  winner : String
  user_move : String
  bot_move : String
deriving DecidableEq, Repr

/-- The mutable `GameState` class of `rps_game.py` (fields as in
`GameState.__init__`). -/
structure GameState where
  round : Nat
  user_score : Nat
  bot_score : Nat
  user_bomb_used : Bool
  bot_bomb_used : Bool
  game_over : Bool
  history : List RoundOutcome
deriving DecidableEq, Repr

/-- `state = GameState()`: the fresh state created at process start,
all fields at their zero values. -/
def GameState.init : GameState :=
  { round := 0, user_score := 0, bot_score := 0, user_bomb_used := false,
    bot_bomb_used := false, game_over := false, history := [] }

/-- The dictionary returned by `validate_move`:
`{"valid": ..., "reason": ..., "move": ...}` (with `None` as `none`). -/
structure ValidationResult where
  valid : Bool
  reason : Option String
  move : Option String
deriving DecidableEq, Repr

/-- `valid_moves = {"rock", "paper", "scissors", "bomb"}`. -/
def valid_moves : List String := ["rock", "paper", "scissors", "bomb"]

/-- Python's `str.lower()`: lower-case every character. -/
def pyLower (s : String) : String := ⟨s.data.map Char.toLower⟩

/-- The whitespace characters stripped by Python's `str.strip()`. -/
def isPySpace (c : Char) : Bool :=
  c = ' ' ∨ c = '\t' ∨ c = '\n' ∨ c = '\r' ∨ c = '\x0b' ∨ c = '\x0c'

/-- Python's `str.strip()`: drop leading and trailing whitespace. -/
def pyStrip (s : String) : String :=
  ⟨((s.data.dropWhile isPySpace).reverse.dropWhile isPySpace).reverse⟩

/-- `validate_move(user_input, user_bomb_used)` from `rps_game.py`:
normalises with `.lower().strip()`, rejects tokens outside
`valid_moves`, rejects a re-used bomb, otherwise accepts. -/
def validate_move (user_input : String) (user_bomb_used : Bool) : ValidationResult :=
  let move := pyStrip (pyLower user_input)
  if move ∉ valid_moves then
    { valid := false, reason := some "Invalid move", move := none }
  else if move = "bomb" ∧ user_bomb_used = true then
    { valid := false, reason := some "Bomb already used", move := none }
  else
    { valid := true, reason := none, move := some move }

/-- `resolve_round(user_move, bot_move)` from `rps_game.py`: the
first-match-wins chain invalid / draw / user-bomb / bot-bomb /
beats-table. -/
def resolve_round (user_move bot_move : String) : RoundOutcome :=
  if user_move = "invalid" then
    { winner := "invalid", user_move := user_move, bot_move := bot_move }
  else if user_move = bot_move then
    { winner := "draw", user_move := user_move, bot_move := bot_move }
  else if user_move = "bomb" then
    { winner := "user", user_move := user_move, bot_move := bot_move }
  else if bot_move = "bomb" then
    { winner := "bot", user_move := user_move, bot_move := bot_move }
  else if (user_move, bot_move) ∈
      [("rock", "scissors"), ("paper", "rock"), ("scissors", "paper")] then
    { winner := "user", user_move := user_move, bot_move := bot_move }
  else
    { winner := "bot", user_move := user_move, bot_move := bot_move }

/-- `update_game_state(result)` from `rps_game.py`, with the mutation
of the global `state` made explicit: each `let` mirrors one mutating
statement, in source order. -/
def update_game_state (result : RoundOutcome) (s0 : GameState) : GameState :=
  let s1 := { s0 with round := s0.round + 1 }
  let s2 := if result.user_move = "bomb" then { s1 with user_bomb_used := true } else s1
  let s3 := if result.bot_move = "bomb" then { s2 with bot_bomb_used := true } else s2
  let s4 :=
    if result.winner = "user" then { s3 with user_score := s3.user_score + 1 }
    else if result.winner = "bot" then { s3 with bot_score := s3.bot_score + 1 }
    else s3
  let s5 := { s4 with history := s4.history ++ [result] }
  if s5.round ≥ 3 then { s5 with game_over := true } else s5

/-- `bot_move()` from `rps_game.py`.  The source reads
`state.bot_bomb_used` and draws `random.choice(moves)`; here the flag
is an explicit argument and the random draw is an explicit index `r`,
reduced modulo the candidate-list length. -/
def bot_move (bot_bomb_used : Bool) (r : Nat) : String :=
  let moves := if bot_bomb_used then ["rock", "paper", "scissors"]
               else ["rock", "paper", "scissors"] ++ ["bomb"]
  moves.getD (r % moves.length) "rock"

/-- `generate_referee_response(result)` from `rps_game.py`, with the
reads of the global `state` (round and scores after the update) made
an explicit argument.  The literal texts, including the leading blank
of the invalid / draw / user-win lines and its absence on the bot-win
line, are copied from the source f-strings. -/
def generate_referee_response (result : RoundOutcome) (s : GameState) : String :=
  let round_num := s.round
  if result.user_move = "invalid" then
    " Round " ++ toString round_num ++ ": Invalid move! Round wasted.\n" ++
      "Score: You " ++ toString s.user_score ++ " | Bot " ++ toString s.bot_score
  else
    let msg :=
      if result.winner = "draw" then
        " Round " ++ toString round_num ++ ": Draw! Both played " ++ result.user_move ++ "."
      else if result.winner = "user" then
        " Round " ++ toString round_num ++ ": You win! " ++ result.user_move ++
          " beats " ++ result.bot_move ++ "."
      else
        "Round " ++ toString round_num ++ ": Bot wins! " ++ result.bot_move ++
          " beats " ++ result.user_move ++ "."
    msg ++ "\n" ++ "Score: You " ++ toString s.user_score ++ " | Bot " ++ toString s.bot_score

set_option linter.unusedVariables false

/-- `run_turn(user_input)` from `rps_game.py`: sample bot move,
validate, on failure synthesise the `"invalid"` outcome, otherwise
resolve; update state; narrate.  `api_available` models the
module-level `API_AVAILABLE` flag that is in scope during the call
(the body never reads it); `r` is the bot's random draw.  Returns the
narration together with the updated state. -/
def run_turn (user_input : String) (api_available : Bool) (s : GameState)
    (r : Nat) : String × GameState :=
  let bot_choice := bot_move s.bot_bomb_used r
  let validation := validate_move user_input s.user_bomb_used
  if validation.valid = false then
    let result : RoundOutcome :=
      { winner := "invalid", user_move := "invalid", bot_move := bot_choice }
    let s2 := update_game_state result s
    (generate_referee_response result s2, s2)
  else
    let result := resolve_round (validation.move.getD "") bot_choice
    let s2 := update_game_state result s
    (generate_referee_response result s2, s2)

/-- States reachable from the fresh `GameState` by any sequence of
`update_game_state` steps (arbitrary outcome records, so this covers
every sequence of turns). -/
inductive Reachable : GameState → Prop
  | init : Reachable GameState.init
  | step (s : GameState) (result : RoundOutcome) :
      Reachable s → Reachable (update_game_state result s)

/-! ### Field-wise characterisation of `update_game_state` -/

lemma ugs_round (res : RoundOutcome) (s : GameState) :
    (update_game_state res s).round = s.round + 1 := by
  simp only [update_game_state]
  split_ifs <;> rfl

lemma ugs_history (res : RoundOutcome) (s : GameState) :
    (update_game_state res s).history = s.history ++ [res] := by
  simp only [update_game_state]
  split_ifs <;> rfl

lemma ugs_user_bomb (res : RoundOutcome) (s : GameState) :
    (update_game_state res s).user_bomb_used =
      if res.user_move = "bomb" then true else s.user_bomb_used := by
  simp only [update_game_state]
  split_ifs <;> rfl

lemma ugs_bot_bomb (res : RoundOutcome) (s : GameState) :
    (update_game_state res s).bot_bomb_used =
      if res.bot_move = "bomb" then true else s.bot_bomb_used := by
  simp only [update_game_state]
  split_ifs <;> rfl

lemma ugs_user_score (res : RoundOutcome) (s : GameState) :
    (update_game_state res s).user_score =
      if res.winner = "user" then s.user_score + 1 else s.user_score := by
  simp only [update_game_state]
  split_ifs <;> rfl

lemma ugs_bot_score (res : RoundOutcome) (s : GameState) :
    (update_game_state res s).bot_score =
      if res.winner = "bot" then s.bot_score + 1 else s.bot_score := by
  simp only [update_game_state]
  split_ifs <;> first | rfl | (exfalso; simp_all)

lemma ugs_game_over (res : RoundOutcome) (s : GameState) :
    (update_game_state res s).game_over =
      if s.round + 1 ≥ 3 then true else s.game_over := by
  simp only [update_game_state]
  split_ifs <;> rfl

/-! ### Claim theorems -/

/-- C1: `resolve_round "bomb" x` has winner `"user"` for every legal
bot move `x ≠ "bomb"`; `resolve_round x "bomb"` has winner `"bot"` for
every user move `x` in rock/paper/scissors; `resolve_round "invalid" b`
has winner `"invalid"` for every legal bot move `b`, the invalid rule
taking precedence; and bomb-vs-bomb falls to the draw rule. -/
theorem C1_bomb_and_invalid_rules :
    (∀ x ∈ valid_moves, x ≠ "bomb" → (resolve_round "bomb" x).winner = "user") ∧
    (∀ x ∈ (["rock", "paper", "scissors"] : List String),
      (resolve_round x "bomb").winner = "bot") ∧
    (∀ b ∈ valid_moves, (resolve_round "invalid" b).winner = "invalid") ∧
    (resolve_round "bomb" "bomb").winner = "draw" := by
  refine ⟨?_, ?_, ?_, by decide⟩
  · intro x hx
    fin_cases hx <;> decide
  · intro x hx
    fin_cases hx <;> decide
  · intro b hb
    fin_cases hb <;> decide

/-- C1 witness: the bomb, bomb-reversed and invalid rules instantiated
at concrete moves. -/
theorem C1_witness :
    (resolve_round "bomb" "rock").winner = "user" ∧
    (resolve_round "paper" "bomb").winner = "bot" ∧
    (resolve_round "invalid" "bomb").winner = "invalid" :=
  ⟨C1_bomb_and_invalid_rules.1 "rock" (by decide) (by decide),
   C1_bomb_and_invalid_rules.2.1 "paper" (by decide),
   C1_bomb_and_invalid_rules.2.2.1 "bomb" (by decide)⟩

/-- C2: every legal move against itself is a draw, the standard
rock-paper-scissors cycle resolves to `"user"` and each reversed pair
to `"bot"`, and the outcome record always echoes the two argument
moves in its `user_move` and `bot_move` fields. -/
theorem C2_draws_cycle_and_fields :
    (∀ m ∈ valid_moves, resolve_round m m =
      { winner := "draw", user_move := m, bot_move := m }) ∧
    ((resolve_round "rock" "scissors").winner = "user" ∧
     (resolve_round "paper" "rock").winner = "user" ∧
     (resolve_round "scissors" "paper").winner = "user" ∧
     (resolve_round "scissors" "rock").winner = "bot" ∧
     (resolve_round "rock" "paper").winner = "bot" ∧
     (resolve_round "paper" "scissors").winner = "bot") ∧
    (∀ u b, (resolve_round u b).user_move = u ∧ (resolve_round u b).bot_move = b) := by
  refine ⟨?_, by decide, ?_⟩
  · intro m hm
    fin_cases hm <;> decide
  · intro u b
    unfold resolve_round
    split_ifs <;> exact ⟨rfl, rfl⟩

/-- C2 witness: the draw rule instantiated at `"bomb"` together with
the field echo at a concrete pair. -/
theorem C2_witness :
    resolve_round "bomb" "bomb" =
      { winner := "draw", user_move := "bomb", bot_move := "bomb" } ∧
    (resolve_round "rock" "paper").user_move = "rock" ∧
    (resolve_round "rock" "paper").bot_move = "paper" :=
  ⟨C2_draws_cycle_and_fields.1 "bomb" (by decide),
   (C2_draws_cycle_and_fields.2.2 "rock" "paper").1,
   (C2_draws_cycle_and_fields.2.2 "rock" "paper").2⟩

/-- C3: `update_game_state` always increments `round` by exactly 1,
sets the bomb-used flag of whichever side played `"bomb"`
independently of the winner, increments exactly the winning side's
score (neither for `"draw"` or `"invalid"`), and appends the outcome
to `history`. -/
theorem C3_update_game_state_effects :
    ∀ (result : RoundOutcome) (s : GameState),
      (update_game_state result s).round = s.round + 1 ∧
      (result.user_move = "bomb" → (update_game_state result s).user_bomb_used = true) ∧
      (result.bot_move = "bomb" → (update_game_state result s).bot_bomb_used = true) ∧
      (result.winner = "user" →
        (update_game_state result s).user_score = s.user_score + 1 ∧
        (update_game_state result s).bot_score = s.bot_score) ∧
      (result.winner = "bot" →
        (update_game_state result s).bot_score = s.bot_score + 1 ∧
        (update_game_state result s).user_score = s.user_score) ∧
      (result.winner = "draw" ∨ result.winner = "invalid" →
        (update_game_state result s).user_score = s.user_score ∧
        (update_game_state result s).bot_score = s.bot_score) ∧
      (update_game_state result s).history = s.history ++ [result] := by
  intro result s
  refine ⟨ugs_round result s, ?_, ?_, ?_, ?_, ?_, ugs_history result s⟩
  · intro h
    rw [ugs_user_bomb, if_pos h]
  · intro h
    rw [ugs_bot_bomb, if_pos h]
  · intro h
    rw [ugs_user_score, ugs_bot_score, if_pos h]
    refine ⟨rfl, ?_⟩
    rw [if_neg (by simp [h])]
  · intro h
    rw [ugs_user_score, ugs_bot_score, if_pos h]
    refine ⟨rfl, ?_⟩
    rw [if_neg (by simp [h])]
  · rintro (h | h) <;>
      exact ⟨by rw [ugs_user_score, if_neg (by simp [h])],
             by rw [ugs_bot_score, if_neg (by simp [h])]⟩

/-- C3 witness: the update instantiated at a user bomb win from the
fresh state. -/
theorem C3_witness :
    (update_game_state { winner := "user", user_move := "bomb", bot_move := "rock" }
        GameState.init).round = 1 ∧
    (update_game_state { winner := "user", user_move := "bomb", bot_move := "rock" }
        GameState.init).user_bomb_used = true ∧
    (update_game_state { winner := "user", user_move := "bomb", bot_move := "rock" }
        GameState.init).user_score = 1 :=
  ⟨(C3_update_game_state_effects _ GameState.init).1,
   (C3_update_game_state_effects _ GameState.init).2.1 rfl,
   ((C3_update_game_state_effects _ GameState.init).2.2.2.1 rfl).1⟩

lemma ugs_score_sum (res : RoundOutcome) (s : GameState) :
    (update_game_state res s).user_score + (update_game_state res s).bot_score
      ≤ s.user_score + s.bot_score + 1 := by
  rw [ugs_user_score, ugs_bot_score]
  split_ifs with hA hB
  · exact absurd (hA.symm.trans hB) (by decide)
  · omega
  · omega
  · omega

lemma reachable_invariant (s : GameState) (h : Reachable s) :
    s.round = s.history.length ∧ s.user_score + s.bot_score ≤ s.round ∧
      (s.game_over = true ↔ 3 ≤ s.round) := by
  induction h with
  | init => simp [GameState.init]
  | step t res _ ih =>
    obtain ⟨h1, h2, h3⟩ := ih
    refine ⟨?_, ?_, ?_⟩
    · rw [ugs_round, ugs_history, List.length_append, h1]
      rfl
    · calc (update_game_state res t).user_score + (update_game_state res t).bot_score
          ≤ t.user_score + t.bot_score + 1 := ugs_score_sum res t
        _ ≤ t.round + 1 := by omega
        _ = (update_game_state res t).round := (ugs_round res t).symm
    · rw [ugs_game_over, ugs_round]
      split_ifs with hge
      · simp [hge]
      · rw [h3]
        omega

/-- C4: every state reachable from the fresh `GameState` satisfies
`round = history.length` and `user_score + bot_score ≤ round`, and the
two bomb-used flags never transition from `true` back to `false` under
a state update. -/
theorem C4_state_invariants :
    (∀ s, Reachable s → s.round = s.history.length ∧
      s.user_score + s.bot_score ≤ s.round) ∧
    (∀ (s : GameState) (result : RoundOutcome), s.user_bomb_used = true →
      (update_game_state result s).user_bomb_used = true) ∧
    (∀ (s : GameState) (result : RoundOutcome), s.bot_bomb_used = true →
      (update_game_state result s).bot_bomb_used = true) := by
  refine ⟨fun s h => ⟨(reachable_invariant s h).1, (reachable_invariant s h).2.1⟩, ?_, ?_⟩
  · intro s result h
    rw [ugs_user_bomb]
    split_ifs <;> simp [h]
  · intro s result h
    rw [ugs_bot_bomb]
    split_ifs <;> simp [h]

/-- C4 witness: the invariants at a state one update away from fresh,
and flag persistence at a state whose flags are already set. -/
theorem C4_witness :
    (update_game_state { winner := "draw", user_move := "rock", bot_move := "rock" }
        GameState.init).round =
      (update_game_state { winner := "draw", user_move := "rock", bot_move := "rock" }
        GameState.init).history.length ∧
    (update_game_state { winner := "draw", user_move := "rock", bot_move := "rock" }
        { GameState.init with user_bomb_used := true, bot_bomb_used := true }).user_bomb_used
      = true ∧
    (update_game_state { winner := "draw", user_move := "rock", bot_move := "rock" }
        { GameState.init with user_bomb_used := true, bot_bomb_used := true }).bot_bomb_used
      = true :=
  ⟨(C4_state_invariants.1 _ (Reachable.step _ _ Reachable.init)).1,
   C4_state_invariants.2.1 _ _ rfl,
   C4_state_invariants.2.2 _ _ rfl⟩

/-- C5: in every reachable state `game_over` holds exactly when
`round ≥ 3`; after exactly three updates from the fresh state
`game_over` is true; and once true, `game_over` stays true under any
further update. -/
theorem C5_game_over_exactly_at_three :
    (∀ s, Reachable s → (s.game_over = true ↔ 3 ≤ s.round)) ∧
    (∀ r1 r2 r3 : RoundOutcome,
      (update_game_state r3 (update_game_state r2
        (update_game_state r1 GameState.init))).game_over = true) ∧
    (∀ (s : GameState) (result : RoundOutcome), s.game_over = true →
      (update_game_state result s).game_over = true) := by
  refine ⟨fun s h => (reachable_invariant s h).2.2, ?_, ?_⟩
  · intro r1 r2 r3
    rw [ugs_game_over, ugs_round, ugs_round]
    simp [GameState.init]
  · intro s result h
    rw [ugs_game_over]
    split_ifs <;> simp [h]

/-- C5 witness: the equivalence at the fresh state, a concrete
three-update run ending with `game_over`, and persistence at a
finished state. -/
theorem C5_witness :
    (GameState.init.game_over = true ↔ 3 ≤ GameState.init.round) ∧
    (update_game_state { winner := "draw", user_move := "rock", bot_move := "rock" }
      (update_game_state { winner := "draw", user_move := "rock", bot_move := "rock" }
        (update_game_state { winner := "draw", user_move := "rock", bot_move := "rock" }
          GameState.init))).game_over = true ∧
    (update_game_state { winner := "draw", user_move := "rock", bot_move := "rock" }
        { GameState.init with round := 3, game_over := true }).game_over = true :=
  ⟨C5_game_over_exactly_at_three.1 GameState.init Reachable.init,
   C5_game_over_exactly_at_three.2.1 _ _ _,
   C5_game_over_exactly_at_three.2.2 _ _ rfl⟩

/-- C6: `validate_move` normalises by lower-casing and trimming, then
rejects unknown tokens with reason `"Invalid move"`, rejects a re-used
bomb with reason `"Bomb already used"`, and accepts everything else,
always returning a result record (it is a total function). -/
theorem C6_validate_move_cases :
    ∀ (raw_input : String) (bomb_already_used : Bool),
      (pyStrip (pyLower raw_input) ∉ valid_moves →
        validate_move raw_input bomb_already_used =
          { valid := false, reason := some "Invalid move", move := none }) ∧
      (pyStrip (pyLower raw_input) = "bomb" → bomb_already_used = true →
        validate_move raw_input bomb_already_used =
          { valid := false, reason := some "Bomb already used", move := none }) ∧
      (pyStrip (pyLower raw_input) ∈ valid_moves →
        (pyStrip (pyLower raw_input) = "bomb" → bomb_already_used = false) →
        validate_move raw_input bomb_already_used =
          { valid := true, reason := none, move := some (pyStrip (pyLower raw_input)) }) := by
  intro raw b
  refine ⟨?_, ?_, ?_⟩
  · intro h
    simp [validate_move, h]
  · intro h1 h2
    simp [validate_move, h1, h2, valid_moves]
  · intro h1 h2
    by_cases hb : pyStrip (pyLower raw) = "bomb"
    · simp [validate_move, h1, hb, h2 hb, valid_moves]
    · simp [validate_move, h1, hb]

/-- C6 witness: acceptance of a padded upper-case input, the re-used
bomb rejection, and the unknown-token rejection, each through the case
theorem at a concrete input. -/
theorem C6_witness :
    validate_move "  ROCK  " false =
      { valid := true, reason := none, move := some "rock" } ∧
    validate_move "bomb" true =
      { valid := false, reason := some "Bomb already used", move := none } ∧
    validate_move "lizard" false =
      { valid := false, reason := some "Invalid move", move := none } :=
  ⟨((C6_validate_move_cases "  ROCK  " false).2.2 (by decide)
      (fun h => absurd h (by decide))).trans (by decide),
   (C6_validate_move_cases "bomb" true).2.1 (by decide) rfl,
   (C6_validate_move_cases "lizard" false).1 (by decide)⟩

/-- C7 counterexample: the narration is not exactly the literal §6
text — the invalid-round message carries a leading blank before
`Round`, so at round 1 of a fresh game the output differs from the
claimed literal. -/
theorem C7_counterexample :
    generate_referee_response
        { winner := "invalid", user_move := "invalid", bot_move := "rock" }
        { GameState.init with round := 1 } ≠
      "Round 1: Invalid move! Round wasted.\nScore: You 0 | Bot 0" := by
  decide

/-- C7 (amended): the narration equals the §6 text except that the
invalid, draw and user-win messages carry one leading blank before
`Round` while the bot-win message carries none; the invalid branch is
selected by the outcome's `user_move`, the round number and scores are
read from the already-updated state passed in. -/
theorem C7_narration_text :
    ∀ (result : RoundOutcome) (s : GameState),
      (result.user_move = "invalid" →
        generate_referee_response result s =
          " Round " ++ toString s.round ++ ": Invalid move! Round wasted.\n" ++
            "Score: You " ++ toString s.user_score ++ " | Bot " ++ toString s.bot_score) ∧
      (result.user_move ≠ "invalid" → result.winner = "draw" →
        generate_referee_response result s =
          " Round " ++ toString s.round ++ ": Draw! Both played " ++ result.user_move ++
            "." ++ "\n" ++ "Score: You " ++ toString s.user_score ++ " | Bot " ++
            toString s.bot_score) ∧
      (result.user_move ≠ "invalid" → result.winner = "user" →
        generate_referee_response result s =
          " Round " ++ toString s.round ++ ": You win! " ++ result.user_move ++
            " beats " ++ result.bot_move ++ "." ++ "\n" ++ "Score: You " ++
            toString s.user_score ++ " | Bot " ++ toString s.bot_score) ∧
      (result.user_move ≠ "invalid" → result.winner ≠ "draw" → result.winner ≠ "user" →
        generate_referee_response result s =
          "Round " ++ toString s.round ++ ": Bot wins! " ++ result.bot_move ++
            " beats " ++ result.user_move ++ "." ++ "\n" ++ "Score: You " ++
            toString s.user_score ++ " | Bot " ++ toString s.bot_score) := by
  intro result s
  refine ⟨?_, ?_, ?_, ?_⟩
  · intro h
    simp only [generate_referee_response]
    rw [if_pos h]
  · intro h1 h2
    simp only [generate_referee_response]
    rw [if_neg h1, if_pos h2]
  · intro h1 h2
    simp only [generate_referee_response]
    rw [if_neg h1, if_neg (by simp [h2]), if_pos h2]
  · intro h1 h2 h3
    simp only [generate_referee_response]
    rw [if_neg h1, if_neg h2, if_neg h3]

/-- C7 witness: the amended invalid-round and bot-win texts evaluated
at concrete outcomes and states. -/
theorem C7_witness :
    generate_referee_response
        { winner := "invalid", user_move := "invalid", bot_move := "rock" }
        { GameState.init with round := 1 } =
      " Round 1: Invalid move! Round wasted.\nScore: You 0 | Bot 0" ∧
    generate_referee_response
        { winner := "bot", user_move := "rock", bot_move := "paper" }
        { GameState.init with round := 2, bot_score := 1 } =
      "Round 2: Bot wins! paper beats rock.\nScore: You 0 | Bot 1" :=
  ⟨((C7_narration_text
      { winner := "invalid", user_move := "invalid", bot_move := "rock" }
      { GameState.init with round := 1 }).1 rfl).trans (by decide),
   ((C7_narration_text
      { winner := "bot", user_move := "rock", bot_move := "paper" }
      { GameState.init with round := 2, bot_score := 1 }).2.2.2 (by decide)
      (by decide) (by decide)).trans (by decide)⟩

/-- C8: the bot's move always lies in the currently eligible candidate
set — rock/paper/scissors once its bomb is spent, the four legal moves
otherwise; it is never `"invalid"` and never `"bomb"` after the bomb
was used, whatever the random draw. -/
theorem C8_bot_move_candidates :
    ∀ (bot_bomb_used : Bool) (r : Nat),
      (bot_bomb_used = true →
        bot_move bot_bomb_used r ∈ (["rock", "paper", "scissors"] : List String)) ∧
      (bot_bomb_used = false → bot_move bot_bomb_used r ∈ valid_moves) ∧
      bot_move bot_bomb_used r ≠ "invalid" ∧
      (bot_bomb_used = true → bot_move bot_bomb_used r ≠ "bomb") := by
  intro b r
  cases b with
  | false =>
    have h4 : r % 4 = 0 ∨ r % 4 = 1 ∨ r % 4 = 2 ∨ r % 4 = 3 := by omega
    refine ⟨fun h => by simp at h, fun _ => ?_, ?_, fun h => by simp at h⟩ <;>
      rcases h4 with h | h | h | h <;> simp [bot_move, h, valid_moves]
  | true =>
    have h3 : r % 3 = 0 ∨ r % 3 = 1 ∨ r % 3 = 2 := by omega
    refine ⟨fun _ => ?_, fun h => by simp at h, ?_, fun _ => ?_⟩ <;>
      rcases h3 with h | h | h <;> simp [bot_move, h, valid_moves]

/-- C8 witness: concrete draws with the bomb spent and unspent. -/
theorem C8_witness :
    bot_move true 0 ∈ (["rock", "paper", "scissors"] : List String) ∧
    bot_move false 3 ∈ valid_moves ∧
    bot_move true 5 ≠ "bomb" :=
  ⟨(C8_bot_move_candidates true 0).1 rfl,
   (C8_bot_move_candidates false 3).2.1 rfl,
   (C8_bot_move_candidates true 5).2.2.2 rfl⟩

/-- C9: a full turn computes the identical narration and identical
successor state whether or not the generative-language credential is
present — the `API_AVAILABLE` flag in scope never influences the core. -/
theorem C9_api_flag_noninterference :
    ∀ (user_input : String) (s : GameState) (r : Nat) (a1 a2 : Bool),
      run_turn user_input a1 s r = run_turn user_input a2 s r := by
  intro user_input s r a1 a2
  rfl

lemma run_turn_update (user_input : String) (a : Bool) (s : GameState) (r : Nat) :
    ∃ result, (run_turn user_input a s r).2 = update_game_state result s := by
  simp only [run_turn]
  split_ifs <;> exact ⟨_, rfl⟩

/-- C10: calling `run_turn` with the game already over still runs an
ordinary turn — the round counter grows past 3, one outcome is
appended to the history, and `game_over` stays true; moreover there is
a post-terminal call in which a score still changes. -/
theorem C10_post_terminal_turns :
    (∀ (user_input : String) (a : Bool) (s : GameState) (r : Nat),
      s.game_over = true → 3 ≤ s.round →
        (run_turn user_input a s r).2.round = s.round + 1 ∧
        (run_turn user_input a s r).2.history.length = s.history.length + 1 ∧
        (run_turn user_input a s r).2.game_over = true) ∧
    (∃ (user_input : String) (a : Bool) (s : GameState) (r : Nat),
      s.game_over = true ∧ 3 ≤ s.round ∧
      (run_turn user_input a s r).2.user_score = s.user_score + 1) := by
  constructor
  · intro input a s r hgo hround
    obtain ⟨res, hres⟩ := run_turn_update input a s r
    rw [hres, ugs_round, ugs_history, ugs_game_over, List.length_append]
    refine ⟨rfl, rfl, ?_⟩
    rw [if_pos (by omega)]
  · refine ⟨"rock", true, { GameState.init with round := 3, game_over := true }, 2,
      rfl, by decide, ?_⟩
    decide

/-- C10 witness: a turn played in a finished game still increments the
round and keeps `game_over`. -/
theorem C10_witness :
    (run_turn "paper" false
      { GameState.init with round := 4, game_over := true } 0).2.round = 5 ∧
    (run_turn "paper" false
      { GameState.init with round := 4, game_over := true } 0).2.game_over = true :=
  ⟨(C10_post_terminal_turns.1 "paper" false
      { GameState.init with round := 4, game_over := true } 0 rfl (by decide)).1,
   (C10_post_terminal_turns.1 "paper" false
      { GameState.init with round := 4, game_over := true } 0 rfl (by decide)).2.2⟩

end RpsGame
